import Mathlib

/-!
Verification of the CUT AI adoption analytics platform (survey ingestion,
preprocessing, model prediction, persistence, charts, insights client).

The development shallowly embeds the Python source:
* a pandas dataframe is a list of rows, a row an association list from
  column names to cells; a cell is missing (`na`), a string or an integer;
* `preprocess_data` mirrors `src/utils.py` line by line (fillna dict,
  `used_ai_tools` copy, numeric coercion of the usage frequency, the three
  derived columns);
* the ORM layer of `src/database.py` becomes explicit state passing over a
  `DB` record; a raised exception (rollback) is the `Except.error` branch;
* `prepare_features` / `predict_adoption` of `src/model.py` return
  `Option`, `none` standing for a pandas `KeyError` on a missing column;
  the fitted scikit-learn model is opaque: a per-row probability function,
  which is exactly the `predict_proba` row-alignment contract;
* the challenges chart of `src/data_viz.py` is embedded down to its
  category/count table (the plotly call draws that table and adds nothing);
* `get_ai_insights` of `src/openrouter_api.py` is parametrised by the
  outcome of the external HTTP call.
-/

/-- A dataframe cell: missing (pandas `NaN`), a string, or an integer.
`src/utils.py` only ever produces string and integer cells; real numbers
are not needed by any property proved here. -/
inductive Cell where
  | na : Cell
  | str : String → Cell
  | int : Int → Cell
deriving DecidableEq, Repr

/-- A dataframe row: association list from column name to cell. -/
abbrev Row := List (String × Cell)

/-- A dataframe: list of rows (all sharing a column set in practice). -/
abbrev Frame := List Row

/-- First cell stored under column `c`, if the row has the column. -/
def Row.find? : Row → String → Option Cell
  | [], _ => none
  | (k, v) :: r, c => if k = c then some v else Row.find? r c

/-- `df[c]` for one row on the happy path: the cell under column `c`
(`Cell.na` when the column is absent; the fallible access used where a
claim depends on the `KeyError` is `Row.find?` / `getColumn`). -/
def Row.cell (r : Row) (c : String) : Cell :=
  (Row.find? r c).getD Cell.na

/-- `df[c] = series` on one row: overwrite the column in place when it
exists, else append it on the right (pandas appends new columns last). -/
def Row.setCell (r : Row) (c : String) (v : Cell) : Row :=
  if (Row.find? r c).isSome then
    r.map (fun kv => if kv.1 = c then (c, v) else kv)
  else
    r ++ [(c, v)]

/-- `df[c] = df.apply(g, axis=1)`: set column `c` of every row from the
row itself. -/
def Frame.setCol (f : Frame) (c : String) (g : Row → Cell) : Frame :=
  f.map (fun r => Row.setCell r c (g r))

/-- Python `str(x)` on a cell (`str(nan)` is `"nan"`). -/
def cellStr : Cell → String
  | Cell.na => "nan"
  | Cell.str s => s
  | Cell.int n => toString n

/-- The fill dictionary of `src/utils.py` lines 18-25. -/
def fillDict : List (String × Cell) :=
  [("4. AI familiarity", Cell.str "Not familiar at all"),
   ("5. Used AI tools", Cell.str "None"),
   ("6. Tools used", Cell.str "None"),
   ("7. Usage frequency", Cell.int 1),
   ("8. Challenges", Cell.str "None"),
   ("10. Improves learning?", Cell.str "No")]

/-- `fillna`: a missing cell of a listed column takes the dictionary
value; every other cell is untouched. -/
def fillCell (c : String) : Cell → Cell
  | Cell.na => (List.lookup c fillDict).getD Cell.na
  | v => v

/-- `df.fillna({...})` over the whole frame (only existing columns are
filled; pandas ignores dictionary keys that are not columns). -/
def Frame.fillna (f : Frame) : Frame :=
  f.map (fun r => r.map (fun kv => (kv.1, fillCell kv.1 kv.2)))

/-- `pd.to_numeric(x, errors="coerce")` on one cell, integers only:
an unparsable string becomes `na` (coerced), numbers pass through. -/
def toNumericCoerce : Cell → Cell
  | Cell.na => Cell.na
  | Cell.int n => Cell.int n
  | Cell.str s => match s.toInt? with
    | some n => Cell.int n
    | none => Cell.na

/-- `.fillna(1)` after the numeric coercion (line 31 of `src/utils.py`). -/
def fillOne : Cell → Cell
  | Cell.na => Cell.int 1
  | v => v

/-- `rest` of `l` after the prefix `pre`, when `l` starts with `pre`. -/
def dropPre? : List Char → List Char → Option (List Char)
  | l, [] => some l
  | [], _ :: _ => none
  | c :: l, p :: ps => if c = p then dropPre? l ps else none

/-- Split on the first-match, non-overlapping occurrences of `sep`;
`acc` is the current segment reversed, `fuel` a structural bound (one
step consumes at least one character, so `|l| + 1` is enough). -/
def splitSepAux (sep : List Char) : Nat → List Char → List Char → List (List Char)
  | 0, l, acc => [acc.reverse ++ l]
  | _ + 1, [], acc => [acc.reverse]
  | fuel + 1, c :: l, acc =>
    match dropPre? (c :: l) sep with
    | some rest => acc.reverse :: splitSepAux sep fuel rest []
    | none => splitSepAux sep fuel l (c :: acc)

/-- Python `s.split(sep)` for a non-empty separator (the only uses in the
source are `", "` and `","`): left-to-right, non-overlapping; splitting
the empty string gives `[""]`. Structurally recursive so that concrete
witnesses evaluate inside the kernel. -/
def pySplit (s sep : String) : List String :=
  (splitSepAux sep.data (s.data.length + 1) s.data []).map String.mk

/-- The lambda of lines 34-36 / 39-41 of `src/utils.py`:
`0 if x == "None" else len(str(x).split(", "))`. Note the delimiter is
the two-character string comma-space. -/
def countCell (x : Cell) : Cell :=
  if x = Cell.str "None" then Cell.int 0
  else Cell.int (pySplit (cellStr x) ", ").length

/-- The lambda of lines 44-46 of `src/utils.py`:
`1 if x == "Yes" else 0`. -/
def adoptionCell (x : Cell) : Cell :=
  Cell.int (if x = Cell.str "Yes" then 1 else 0)

/-- `preprocess_data` of `src/utils.py` as a pure value transformer: the
contents of the returned dataframe (the argument-aliasing behaviour is
embedded separately as `preprocess_data_prog` over an explicit heap). -/
def preprocess_data (data : Frame) : Frame :=
  let df := data
  let df := Frame.fillna df
  let df := Frame.setCol df "used_ai_tools" (fun r => Row.cell r "5. Used AI tools")
  let df := Frame.setCol df "7. Usage frequency"
    (fun r => fillOne (toNumericCoerce (Row.cell r "7. Usage frequency")))
  let df := Frame.setCol df "tools_count" (fun r => countCell (Row.cell r "6. Tools used"))
  let df := Frame.setCol df "challenges_count" (fun r => countCell (Row.cell r "8. Challenges"))
  let df := Frame.setCol df "adoption_positive" (fun r => adoptionCell (Row.cell r "10. Improves learning?"))
  df

/-- One preprocessed row (`preprocess_data` is row-wise). -/
def preprocessRow (r : Row) : Row :=
  let r := r.map (fun kv => (kv.1, fillCell kv.1 kv.2))
  let r := Row.setCell r "used_ai_tools" (Row.cell r "5. Used AI tools")
  let r := Row.setCell r "7. Usage frequency"
    (fillOne (toNumericCoerce (Row.cell r "7. Usage frequency")))
  let r := Row.setCell r "tools_count" (countCell (Row.cell r "6. Tools used"))
  let r := Row.setCell r "challenges_count" (countCell (Row.cell r "8. Challenges"))
  let r := Row.setCell r "adoption_positive" (adoptionCell (Row.cell r "10. Improves learning?"))
  r

/-! ### Aliasing model of `preprocess_data` (lines 14-48 of `src/utils.py`)

Python variables hold references to dataframe objects; `data.copy()`
allocates a fresh object, `df.fillna({...})` (no `inplace`) returns a
fresh object, and `df[c] = series` writes through the reference. The
heap below makes those reads and writes explicit so that the
"argument left unchanged" frame property is a theorem about the program
text, not a triviality of a pure encoding. -/

/-- A heap of dataframe objects: allocated addresses are below `next`. -/
structure Heap where
  mem : Nat → Option Frame
  next : Nat

/-- Dereference (the garbage value for a dangling reference is `[]`). -/
def Heap.get (h : Heap) (r : Nat) : Frame :=
  (h.mem r).getD []

/-- In-place mutation of the object at address `r`. -/
def Heap.write (h : Heap) (r : Nat) (f : Frame) : Heap :=
  ⟨fun n => if n = r then some f else h.mem n, h.next⟩

/-- Allocation of a fresh object. -/
def Heap.alloc (h : Heap) (f : Frame) : Heap × Nat :=
  (⟨fun n => if n = h.next then some f else h.mem n, h.next + 1⟩, h.next)

/-- The body of `preprocess_data`, reference by reference: `data` is the
caller's dataframe; the returned address is the new dataframe `df`. -/
def preprocess_data_prog (h0 : Heap) (data : Nat) : Heap × Nat :=
  let p1 := Heap.alloc h0 (Heap.get h0 data)
  let h1 := p1.1
  let df := p1.2
  let p2 := Heap.alloc h1 (Frame.fillna (Heap.get h1 df))
  let h2 := p2.1
  let df := p2.2
  let h3 := Heap.write h2 df
    (Frame.setCol (Heap.get h2 df) "used_ai_tools" (fun r => Row.cell r "5. Used AI tools"))
  let h4 := Heap.write h3 df
    (Frame.setCol (Heap.get h3 df) "7. Usage frequency"
      (fun r => fillOne (toNumericCoerce (Row.cell r "7. Usage frequency"))))
  let h5 := Heap.write h4 df
    (Frame.setCol (Heap.get h4 df) "tools_count" (fun r => countCell (Row.cell r "6. Tools used")))
  let h6 := Heap.write h5 df
    (Frame.setCol (Heap.get h5 df) "challenges_count" (fun r => countCell (Row.cell r "8. Challenges")))
  let h7 := Heap.write h6 df
    (Frame.setCol (Heap.get h6 df) "adoption_positive" (fun r => adoptionCell (Row.cell r "10. Improves learning?")))
  (h7, df)

/-! ### `src/model.py`: feature preparation and prediction -/

/-- `Option`-valued traversal; `none` on the first failing element
(pandas raises on the first missing column). -/
def traverseOpt (f : α → Option β) : List α → Option (List β)
  | [] => some []
  | a :: l => match f a, traverseOpt f l with
    | some b, some l' => some (b :: l')
    | _, _ => none

/-- The feature list of `prepare_features` (`src/model.py` lines 25-34). -/
def featureCols : List String :=
  ["2. Level of study", "3. Faculty", "4. AI familiarity", "7. Usage frequency",
   "tools_count", "challenges_count", "used_ai_tools", "6. Tools used"]

/-- Column selection `data[features]` on one row; `none` when a feature
column is absent (pandas `KeyError`). -/
def selectRow (cols : List String) (r : Row) : Option Row :=
  traverseOpt (fun c => (Row.find? r c).map (fun v => (c, v))) cols

/-- `prepare_features(data)` (`src/model.py` lines 14-43): selects the
feature matrix `X = data[features]` AND the target `y = data["adoption_positive"]`;
the target lookup happens unconditionally, so a frame without the target
column makes the whole call fail (`none` = `KeyError`). -/
def prepare_features (data : Frame) : Option (Frame × List Cell) :=
  match traverseOpt (selectRow featureCols) data,
        traverseOpt (fun r => Row.find? r "adoption_positive") data with
  | some X, some y => some (X, y)
  | _, _ => none

/-- An opaque fitted scikit-learn pipeline: all the development uses of it
is `predict_proba(X)[:, 1]`, i.e. one positive-class probability per
feature row, in row order — embedded as a per-row function. -/
structure FittedModel where
  predictProbaPos : Row → Rat

/-- `predict_adoption(model, data)` (`src/model.py` lines 125-142):
`X, _ = prepare_features(data)` then `model.predict_proba(X)[:, 1]`. -/
def predict_adoption (m : FittedModel) (data : Frame) : Option (List Rat) :=
  match prepare_features data with
  | none => none
  | some Xy => some (Xy.1.map m.predictProbaPos)

/-! ### `src/database.py`: persistence layer

Sessions are created with `autoflush=False`, so the duplicate-email query
inside one ingest batch sees only rows already committed to the database,
never the rows pending in the session; within-batch duplicate emails
therefore surface only at `commit()` as a unique-constraint violation,
which the `except` clause turns into rollback plus re-raise
(`Except.error`, database unchanged). The autoincrement primary key of
`predictions` and the `created_at` timestamps play no part in any claim
and are omitted. -/

/-- A committed row of the `surveys` table (`src/database.py` lines 23-43). -/
structure Survey where
  id : Nat
  email : String
  level_of_study : String
  faculty : String
  ai_familiarity : String
  used_ai_tools : String
  tools_used : String
  usage_frequency : Int
  challenges : String
  helpful_tools_needed : String
  improves_learning : String
  suggestions : String
  tools_count : Int
  challenges_count : Int
deriving DecidableEq, Repr

/-- A committed row of the `predictions` table (lines 49-63; the
autoincrement key and `created_at` omitted). -/
structure Prediction where
  survey_id : Nat
  adoption_probability : Rat
  model_version : String
deriving DecidableEq, Repr

/-- The relational store. `nextSurveyId` models the serial key sequence. -/
structure DB where
  surveys : List Survey
  predictions : List Prediction
  nextSurveyId : Nat
deriving DecidableEq, Repr

/-- One dataframe row as `load_survey_data_to_db` reads it: the eleven
survey columns plus the optional derived counts (`'tools_count' in row`,
lines 138-139 guard their absence). -/
structure SurveyRow where
  email : String
  level_of_study : String
  faculty : String
  ai_familiarity : String
  used_ai_tools : String
  tools_used : String
  usage_frequency : Int
  challenges : String
  helpful_tools_needed : String
  improves_learning : String
  suggestions : String
  tools_count? : Option Int
  challenges_count? : Option Int
deriving DecidableEq, Repr

/-- `db_session.query(Survey).filter_by(email=e).first()` is some row. -/
def hasEmail (svys : List Survey) (e : String) : Bool :=
  svys.any (fun s => s.email = e)

/-- The `Survey(...)` constructor call of lines 126-140. -/
def mkSurvey (id : Nat) (r : SurveyRow) : Survey :=
  ⟨id, r.email, r.level_of_study, r.faculty, r.ai_familiarity, r.used_ai_tools,
   r.tools_used, r.usage_frequency, r.challenges, r.helpful_tools_needed,
   r.improves_learning, r.suggestions,
   (r.tools_count?).getD 0, (r.challenges_count?).getD 0⟩

/-- The `for _, row in df.iterrows()` loop of lines 120-143: rows whose
email is already committed are skipped; the rest become pending session
objects (ids from the serial sequence) and are counted. -/
def ingestScan (svys : List Survey) : List SurveyRow → Nat → List Survey × Nat
  | [], _ => ([], 0)
  | r :: rs, nid =>
    if hasEmail svys r.email then ingestScan svys rs nid
    else
      let rest := ingestScan svys rs (nid + 1)
      (mkSurvey nid r :: rest.1, rest.2 + 1)

/-- `load_survey_data_to_db(df)` (`src/database.py` lines 100-153):
returns the number of records added (an `int`, nothing else); `commit()`
enforces the unique email constraint over the pending rows, and on a
violation the batch rolls back in full and the exception propagates
(`Except.error ()`, database unchanged). -/
def load_survey_data_to_db (db : DB) (rows : List SurveyRow) : Except Unit (DB × Nat) :=
  let pc := ingestScan db.surveys rows db.nextSurveyId
  if (pc.1.map (fun s => s.email)).Nodup then
    Except.ok ({ db with surveys := db.surveys ++ pc.1,
                         nextSurveyId := db.nextSurveyId + pc.2 }, pc.2)
  else
    Except.error ()

/-- The `for i, pred in enumerate(predictions)` loop of lines 177-193,
walking `data.iloc[i]` in lockstep: running out of data rows is the
`IndexError` branch; an email with no committed survey is skipped; a
match appends a `Prediction(survey_id=survey.id, ...)`. -/
def savePredLoop (svys : List Survey) (mv : String) :
    List SurveyRow → List Rat → Except Unit (List Prediction × Nat)
  | _, [] => Except.ok ([], 0)
  | [], _ :: _ => Except.error ()
  | r :: rs, p :: ps =>
    match svys.find? (fun s => s.email = r.email) with
    | none => savePredLoop svys mv rs ps
    | some s =>
      match savePredLoop svys mv rs ps with
      | Except.ok lc => Except.ok (⟨s.id, p, mv⟩ :: lc.1, lc.2 + 1)
      | Except.error e => Except.error e

/-- `save_predictions_to_db(data, predictions, model_version)`
(`src/database.py` lines 156-203): the predictions table has no unique
constraint, so `commit()` succeeds whenever the loop does; any exception
rolls the whole batch back and propagates. -/
def save_predictions_to_db (db : DB) (data : List SurveyRow) (preds : List Rat)
    (mv : String) : Except Unit (DB × Nat) :=
  match savePredLoop db.surveys mv data preds with
  | Except.ok lc =>
      Except.ok ({ db with predictions := db.predictions ++ lc.1 }, lc.2)
  | Except.error e => Except.error e

/-- The pairs `save_predictions_to_db` persists: `(row, probability)`
pairs in order, dropped when no committed survey carries the row's email. -/
def matchedPreds (svys : List Survey) (mv : String) (data : List SurveyRow)
    (preds : List Rat) : List Prediction :=
  (data.zip preds).filterMap
    (fun rp => (svys.find? (fun s => s.email = rp.1.email)).map
      (fun s => ⟨s.id, rp.2, mv⟩))

/-! ### `src/data_viz.py`: the challenges frequency chart -/

/-- `data[c]` at frame level: the column as a list of cells, `none` when
some row lacks the column (pandas `KeyError`). -/
def getColumn (data : Frame) (c : String) : Option (List Cell) :=
  traverseOpt (fun r => Row.find? r c) data

/-- One iteration of the loop at lines 150-152: a missing cell was
dropped by `.dropna()`; the `"None"` sentinel contributes nothing; any
other string splits on `","` with each entry stripped. A non-string cell
has no `.split` (Python `AttributeError`), hence `none`. -/
def challengeEntries : Cell → Option (List String)
  | Cell.na => some []
  | Cell.str s =>
      some (if s = "None" then [] else (pySplit s ",").map (fun t => t.trim))
  | Cell.int _ => none

/-- `collections.Counter` over a list, insertion-ordered. -/
def bump : List (String × Nat) → String → List (String × Nat)
  | [], s => [(s, 1)]
  | (t, n) :: rest, s =>
      if t = s then (t, n + 1) :: rest else (t, n) :: bump rest s

/-- Occurrence counts in first-appearance order (as `Counter` iterates). -/
def counter (l : List String) : List (String × Nat) :=
  l.foldl bump []

/-- `create_challenges_chart(data)` (`src/data_viz.py` lines 138-175)
down to the table the pie chart draws: challenge categories with their
counts, sorted by count descending, top 8 (`sort_values` then
`.head(8)`); the plotly call renders exactly this table. -/
def create_challenges_chart (data : Frame) : Option (List (String × Nat)) :=
  match getColumn data "8. Challenges" with
  | none => none
  | some col =>
    match traverseOpt challengeEntries col with
    | none => none
    | some entryLists =>
      some (((counter entryLists.flatten).mergeSort (fun a b => b.2 ≤ a.2)).take 8)

/-! ### `src/openrouter_api.py`: insights client -/

/-- `generate_mock_insights()` (`src/openrouter_api.py` lines 125-142):
the fixed canned fallback text, verbatim. -/
def generate_mock_insights : String :=
  "Insights:
1. The majority of respondents (58%) are somewhat familiar with AI tools, but there's a significant portion (25%) who aren't familiar at all, indicating a need for basic AI literacy.
2. The most commonly used AI tools are Turnitin (48%), Grammarly (42%), and ChatGPT (37%), showing a focus on writing assistance and academic integrity.
3. Technical issues and lack of training are the top challenges faced by users, suggesting infrastructure and education gaps.
4. Faculty affiliation significantly correlates with AI adoption rates, with Engineering and Business faculties showing higher adoption than Health Sciences and Education.
5. There's a moderate positive correlation between AI familiarity and perception of learning improvement, indicating that understanding AI leads to better learning outcomes.

Recommendations:
1. Implement targeted AI literacy workshops, particularly for those faculties with lower adoption rates, focusing on basic understanding and practical applications.
2. Address technical infrastructure issues by establishing dedicated AI help desks and releasing step-by-step guides for the most common tools.
3. Develop faculty-specific use cases showcasing how AI tools can enhance teaching and learning in different disciplines to encourage adoption across all departments."

/-- Outcome of the external HTTP call in `get_ai_insights`: the response
status with the extracted completion text (`none` when the 200 body does
not parse into `choices[0].message.content`, which the `except` catches),
or a transport exception. -/
inductive ApiOutcome where
  | success : Nat → Option String → ApiOutcome
  | exception : ApiOutcome

/-- `get_ai_insights(prompt)` (`src/openrouter_api.py` lines 53-123),
parametrised by the configured credential (`get_api_key()` result) and by
the outcome of the remote call: no key, a status other than 200, a body
that fails to parse, or a transport exception all return the canned
fallback; only a parsed 200 body returns the model's reply. -/
def get_ai_insights (apiKey : Option String) (outcome : ApiOutcome)
    (_prompt : String) : String :=
  match apiKey with
  | none => generate_mock_insights
  | some _ =>
    match outcome with
    | ApiOutcome.exception => generate_mock_insights
    | ApiOutcome.success status content =>
      if status = 200 then
        match content with
        | some text => text
        | none => generate_mock_insights
      else
        generate_mock_insights

/-- Substring occurrence, witnessed by an explicit split. -/
def hasSubstr (s pat : String) : Prop :=
  ∃ a b : String, s = a ++ pat ++ b

/-! ### Concrete example inputs for witnesses and counterexamples -/

/-- The spec's counting rule in its own words: `tools_count = 0` when the
field is the sentinel, otherwise "the count of comma-separated entries"
(split on the comma). Stated for comparison against `countCell`, which
the source implements with `split(", ")`. -/
def specToolsCount (s : String) : Nat :=
  if s = "None" then 0 else (pySplit s ",").length

/-- A raw survey row whose tools field separates entries with a bare
comma (no space after it). -/
def exToolsRow : Row :=
  [("1. Email", Cell.str "t1@cut.ac.zw"),
   ("2. Level of study", Cell.str "Undergraduate"),
   ("3. Faculty", Cell.str "Engineering"),
   ("4. AI familiarity", Cell.str "Very familiar"),
   ("5. Used AI tools", Cell.str "Yes"),
   ("6. Tools used", Cell.str "ChatGPT,Grammarly"),
   ("7. Usage frequency", Cell.int 3),
   ("8. Challenges", Cell.str "None"),
   ("9. Helpful tools needed", Cell.str "None"),
   ("10. Improves learning?", Cell.str "Yes"),
   ("11. Suggestions", Cell.str "None")]

/-- A preprocessed-shape row carrying every feature column of
`prepare_features` but no `adoption_positive` column. -/
def exFeatRow : Row :=
  [("2. Level of study", Cell.str "Undergraduate"),
   ("3. Faculty", Cell.str "Engineering"),
   ("4. AI familiarity", Cell.str "Very familiar"),
   ("7. Usage frequency", Cell.int 3),
   ("tools_count", Cell.int 2),
   ("challenges_count", Cell.int 1),
   ("used_ai_tools", Cell.str "Yes"),
   ("6. Tools used", Cell.str "ChatGPT, Grammarly")]

/-- `exFeatRow` with the target column added. -/
def exFullRow : Row :=
  exFeatRow ++ [("adoption_positive", Cell.int 1)]

/-- A fitted model returning the constant probability 1/2. -/
def exModel : FittedModel :=
  ⟨fun _ => (1 : Rat) / 2⟩

/-- A stored survey with email `a@cut.ac.zw`. -/
def exSurveyA : Survey :=
  ⟨1, "a@cut.ac.zw", "Undergraduate", "Engineering", "Very familiar", "Yes",
   "ChatGPT", 3, "None", "None", "Yes", "None", 1, 0⟩

/-- A store already holding `exSurveyA`. -/
def exDb : DB :=
  ⟨[exSurveyA], [], 2⟩

/-- An ingest row with the given email (other fields fixed). -/
def exRowWithEmail (e : String) : SurveyRow :=
  ⟨e, "Undergraduate", "Engineering", "Very familiar", "Yes", "ChatGPT", 3,
   "None", "None", "Yes", "None", some 1, some 0⟩

/-- A 3-row batch whose first email is already stored in `exDb`. -/
def exBatch : List SurveyRow :=
  [exRowWithEmail "a@cut.ac.zw", exRowWithEmail "b@cut.ac.zw",
   exRowWithEmail "c@cut.ac.zw"]

/-- The two-row prediction batch used as the C7 witness input. -/
def exPredData : List SurveyRow :=
  [exRowWithEmail "a@cut.ac.zw", exRowWithEmail "z@cut.ac.zw"]

/-- The two probabilities used as the C7 witness input. -/
def exPreds : List Rat :=
  [(2 : Rat)/3, 1/3]

/-- The heap used as the C10 witness: one allocated dataframe. -/
def exHeap : Heap :=
  ⟨fun n => if n = 0 then some [exToolsRow] else none, 1⟩

/-! ### Helper lemmas: association-list cells -/

theorem find?_append (r l : Row) (c : String) :
    Row.find? (r ++ l) c =
      match Row.find? r c with
      | some v => some v
      | none => Row.find? l c := by
  induction r with
  | nil => simp [Row.find?]
  | cons kv r ih =>
    obtain ⟨k, v⟩ := kv
    by_cases hk : k = c
    · subst hk
      simp [Row.find?]
    · simp [Row.find?, hk, ih]

theorem find?_overwrite_same (r : Row) (c : String) (v : Cell) :
    Row.find? (r.map (fun kv => if kv.1 = c then (c, v) else kv)) c =
      (Row.find? r c).map (fun _ => v) := by
  induction r with
  | nil => simp [Row.find?]
  | cons kv r ih =>
    obtain ⟨k, w⟩ := kv
    simp only [List.map_cons]
    by_cases hk : k = c
    · rw [if_pos hk]
      subst hk
      simp [Row.find?, ih]
    · rw [if_neg hk]
      simp [Row.find?, hk, ih]

theorem find?_overwrite_ne (r : Row) (c : String) (v : Cell) (c' : String)
    (h : c' ≠ c) :
    Row.find? (r.map (fun kv => if kv.1 = c then (c, v) else kv)) c' =
      Row.find? r c' := by
  induction r with
  | nil => simp [Row.find?]
  | cons kv r ih =>
    obtain ⟨k, w⟩ := kv
    simp only [List.map_cons]
    by_cases hk : k = c
    · rw [if_pos hk]
      subst hk
      simp [Row.find?, Ne.symm h, ih]
    · rw [if_neg hk]
      simp [Row.find?, hk, ih]

theorem cell_setCell_same (r : Row) (c : String) (v : Cell) :
    Row.cell (Row.setCell r c v) c = v := by
  unfold Row.setCell
  by_cases hf : (Row.find? r c).isSome
  · obtain ⟨w, hw⟩ := Option.isSome_iff_exists.mp hf
    simp [Row.cell, hf, find?_overwrite_same, hw]
  · rw [Option.not_isSome_iff_eq_none] at hf
    simp [Row.cell, hf, find?_append, Row.find?]

theorem cell_setCell_ne (r : Row) (c : String) (v : Cell) (c' : String)
    (h : c' ≠ c) :
    Row.cell (Row.setCell r c v) c' = Row.cell r c' := by
  unfold Row.setCell
  by_cases hf : (Row.find? r c).isSome
  · simp [Row.cell, hf, find?_overwrite_ne _ _ _ _ h]
  · rw [Option.not_isSome_iff_eq_none] at hf
    simp only [hf, Bool.false_eq_true, Option.isSome_none, if_false, Row.cell,
      find?_append]
    cases hc : Row.find? r c' with
    | some w => simp
    | none => simp [Row.find?, Ne.symm h]

theorem preprocess_data_eq_map (data : Frame) :
    preprocess_data data = data.map preprocessRow := by
  simp [preprocess_data, preprocessRow, Frame.fillna, Frame.setCol, List.map_map]

theorem preprocessRow_adoption (r : Row) :
    Row.cell (preprocessRow r) "adoption_positive" =
      adoptionCell (Row.cell (preprocessRow r) "10. Improves learning?") := by
  simp only [preprocessRow]
  rw [cell_setCell_same,
    cell_setCell_ne _ _ _ _
      (show ("10. Improves learning?" : String) ≠ "adoption_positive" by decide)]

theorem preprocessRow_tools_count (r : Row) :
    Row.cell (preprocessRow r) "tools_count" =
      countCell (Row.cell (preprocessRow r) "6. Tools used") := by
  simp only [preprocessRow]
  rw [cell_setCell_ne _ _ _ _
      (show ("tools_count" : String) ≠ "adoption_positive" by decide),
    cell_setCell_ne _ _ _ _
      (show ("tools_count" : String) ≠ "challenges_count" by decide),
    cell_setCell_same,
    cell_setCell_ne _ _ _ _
      (show ("6. Tools used" : String) ≠ "adoption_positive" by decide),
    cell_setCell_ne _ _ _ _
      (show ("6. Tools used" : String) ≠ "challenges_count" by decide),
    cell_setCell_ne _ _ _ _
      (show ("6. Tools used" : String) ≠ "tools_count" by decide)]

/-! ### C4: `adoption_positive` is 1 exactly on the literal `"Yes"` -/

/-- C4: in every row of the preprocessed output, `adoption_positive` is
`1` if the improves-learning field is exactly the string `"Yes"`
(case-sensitive) and `0` for every other value. -/
theorem adoption_positive_iff_yes (data : Frame) (r' : Row)
    (h : r' ∈ preprocess_data data) :
    Row.cell r' "adoption_positive" =
      Cell.int (if Row.cell r' "10. Improves learning?" = Cell.str "Yes" then 1 else 0) ∧
    (Row.cell r' "adoption_positive" = Cell.int 1 ↔
      Row.cell r' "10. Improves learning?" = Cell.str "Yes") := by
  rw [preprocess_data_eq_map] at h
  obtain ⟨r, hr, rfl⟩ := List.mem_map.mp h
  rw [preprocessRow_adoption]
  constructor
  · rfl
  · by_cases hx : Row.cell (preprocessRow r) "10. Improves learning?" = Cell.str "Yes" <;>
      simp [adoptionCell, hx]

/-- Witness for C4 at the concrete row `exToolsRow`. -/
theorem adoption_positive_iff_yes_witness :
    (preprocessRow exToolsRow ∈ preprocess_data [exToolsRow]) ∧
    (Row.cell (preprocessRow exToolsRow) "adoption_positive" =
      Cell.int (if Row.cell (preprocessRow exToolsRow) "10. Improves learning?" = Cell.str "Yes" then 1 else 0) ∧
    (Row.cell (preprocessRow exToolsRow) "adoption_positive" = Cell.int 1 ↔
      Row.cell (preprocessRow exToolsRow) "10. Improves learning?" = Cell.str "Yes")) :=
  ⟨by decide, adoption_positive_iff_yes [exToolsRow] (preprocessRow exToolsRow) (by decide)⟩

/-! ### C3: the tools count and its delimiter -/

/-- C3 (counterexample): a tools field with entries separated by a bare
comma has 2 comma-separated entries, is not the sentinel, yet the
preprocessed `tools_count` is 1 — the source splits on the two-character
delimiter `", "`, so the claim as stated fails on this row. -/
theorem tools_count_comma_counterexample :
    Row.cell exToolsRow "6. Tools used" = Cell.str "ChatGPT,Grammarly" ∧
    specToolsCount "ChatGPT,Grammarly" = 2 ∧
    (preprocess_data [exToolsRow]).map (fun r => Row.cell r "tools_count") =
      [Cell.int 1] := by
  decide

/-- C3 (amended): in every row of the preprocessed output, `tools_count`
is 0 when the tools field equals the sentinel `"None"`, and otherwise the
number of entries obtained by splitting on the exact delimiter `", "`
(comma followed by space), entries neither deduplicated nor
case-normalized. -/
theorem tools_count_commaspace_rule (data : Frame) (r' : Row)
    (h : r' ∈ preprocess_data data) :
    Row.cell r' "tools_count" =
      (if Row.cell r' "6. Tools used" = Cell.str "None" then Cell.int 0
       else Cell.int (pySplit (cellStr (Row.cell r' "6. Tools used")) ", ").length) := by
  rw [preprocess_data_eq_map] at h
  obtain ⟨r, hr, rfl⟩ := List.mem_map.mp h
  rw [preprocessRow_tools_count]
  rfl

/-- Witness for the amended C3 at the concrete row `exToolsRow`. -/
theorem tools_count_commaspace_rule_witness :
    (preprocessRow exToolsRow ∈ preprocess_data [exToolsRow]) ∧
    Row.cell (preprocessRow exToolsRow) "tools_count" =
      (if Row.cell (preprocessRow exToolsRow) "6. Tools used" = Cell.str "None" then Cell.int 0
       else Cell.int (pySplit (cellStr (Row.cell (preprocessRow exToolsRow) "6. Tools used")) ", ").length) :=
  ⟨by decide, tools_count_commaspace_rule [exToolsRow] (preprocessRow exToolsRow) (by decide)⟩

/-! ### C1 / C5: ingest -/

theorem ingestScan_filter (svys : List Survey) (rows : List SurveyRow) (nid : Nat) :
    ingestScan svys (rows.filter (fun r => !hasEmail svys r.email)) nid =
      ingestScan svys rows nid := by
  induction rows generalizing nid with
  | nil => rfl
  | cons r rs ih =>
    cases hr : hasEmail svys r.email <;>
      simp [List.filter_cons, hr, ingestScan, ih]

theorem ingestScan_fresh (svys : List Survey) (rows : List SurveyRow) (nid : Nat) :
    ∀ t ∈ (ingestScan svys rows nid).1, hasEmail svys t.email = false := by
  induction rows generalizing nid with
  | nil => simp [ingestScan]
  | cons r rs ih =>
    cases hr : hasEmail svys r.email with
    | false =>
      intro t ht
      simp only [ingestScan, hr, Bool.false_eq_true, if_false, List.mem_cons] at ht
      rcases ht with h1 | h2
      · subst h1
        exact hr
      · exact ih (nid + 1) t h2
    | true =>
      intro t ht
      simp only [ingestScan, hr, if_true] at ht
      exact ih nid t ht

/-- C1: a batch row whose email is already stored contributes nothing to
the ingest: the whole operation behaves as if the row were absent (so the
duplicate is skipped, never inserted or overwritten, and any error the
operation may raise does not come from the stored duplicate), and on
success the stored rows carrying that email are exactly the ones that
were there before. -/
theorem ingest_duplicate_email_skipped (db : DB) (rows : List SurveyRow)
    (s : Survey) (hs : s ∈ db.surveys) :
    load_survey_data_to_db db rows =
      load_survey_data_to_db db (rows.filter (fun r => !hasEmail db.surveys r.email)) ∧
    ∀ db' n, load_survey_data_to_db db rows = Except.ok (db', n) →
      db'.surveys.filter (fun t => t.email = s.email) =
        db.surveys.filter (fun t => t.email = s.email) := by
  constructor
  · unfold load_survey_data_to_db
    rw [ingestScan_filter]
  · intro db' n hok
    unfold load_survey_data_to_db at hok
    by_cases hnd :
        (((ingestScan db.surveys rows db.nextSurveyId).1).map (fun t => t.email)).Nodup
    · simp only [hnd, if_true, Except.ok.injEq, Prod.mk.injEq] at hok
      obtain ⟨hdb', _⟩ := hok
      subst hdb'
      simp only [List.filter_append]
      have hnil :
          ((ingestScan db.surveys rows db.nextSurveyId).1).filter
            (fun t => t.email = s.email) = [] := by
        rw [List.filter_eq_nil_iff]
        intro t ht hts
        have hf := ingestScan_fresh db.surveys rows db.nextSurveyId t ht
        rw [decide_eq_true_iff] at hts
        have : hasEmail db.surveys t.email = true := by
          unfold hasEmail
          rw [List.any_eq_true]
          exact ⟨s, hs, by simp [hts]⟩
        have := this.symm.trans hf
        simp at this
      rw [hnil, List.append_nil]
    · simp [hnd] at hok

/-- Witness for C1: a store holding `exSurveyA` and a 3-row batch whose
first row repeats its email. -/
theorem ingest_duplicate_email_skipped_witness :
    (exSurveyA ∈ exDb.surveys) ∧
    (load_survey_data_to_db exDb exBatch =
      load_survey_data_to_db exDb (exBatch.filter (fun r => !hasEmail exDb.surveys r.email)) ∧
    ∀ db' n, load_survey_data_to_db exDb exBatch = Except.ok (db', n) →
      db'.surveys.filter (fun t => t.email = exSurveyA.email) =
        exDb.surveys.filter (fun t => t.email = exSurveyA.email)) :=
  ⟨by decide, ingest_duplicate_email_skipped exDb exBatch exSurveyA (by decide)⟩

/-- C5 (code evaluation at the failing scenario): ingesting the 3-row
batch `exBatch` (one email already stored in `exDb`) returns the bare
added count 2 — the value of `load_survey_data_to_db` is a single
integer beside the new store; no skipped count and no skipped-email list
exist anywhere in its return value, although the caller at
`src/app.py:141` unpacks `added, skipped, skipped_emails` from it and the
spec promises the triple `(2, 1, [duplicate email])`. -/
theorem ingest_returns_single_added_count :
    load_survey_data_to_db exDb exBatch =
      Except.ok
        ({ surveys := [exSurveyA, mkSurvey 2 (exRowWithEmail "b@cut.ac.zw"),
                       mkSurvey 3 (exRowWithEmail "c@cut.ac.zw")],
           predictions := [], nextSurveyId := 4 }, 2) := by
  rfl

/-! ### C7: predictions for unknown emails are skipped -/

theorem savePredLoop_eq_matched (svys : List Survey) (mv : String)
    (data : List SurveyRow) (preds : List Rat) (h : preds.length ≤ data.length) :
    savePredLoop svys mv data preds =
      Except.ok (matchedPreds svys mv data preds,
        (matchedPreds svys mv data preds).length) := by
  induction preds generalizing data with
  | nil => cases data <;> simp [savePredLoop, matchedPreds]
  | cons p ps ih =>
    cases data with
    | nil => simp at h
    | cons r rs =>
      have h' : ps.length ≤ rs.length := Nat.succ_le_succ_iff.mp h
      cases hf : svys.find? (fun s => s.email = r.email) with
      | none =>
        simp [savePredLoop, matchedPreds, hf, ih rs h', List.filterMap_cons]
      | some s =>
        simp [savePredLoop, matchedPreds, hf, ih rs h', List.filterMap_cons]

/-- C7: recording predictions never fails on an unknown email — a
`(row, probability)` pair whose email matches no stored survey is
dropped (it contributes no row to the persisted predictions and is not
counted), while every pair whose email does match is appended, as the
`matchedPreds` characterisation states: the new predictions are exactly
the matched pairs, and the returned count is their number. -/
theorem save_predictions_skips_unmatched (db : DB) (data : List SurveyRow)
    (preds : List Rat) (mv : String) (h : preds.length ≤ data.length) :
    save_predictions_to_db db data preds mv =
      Except.ok
        ({ db with predictions := db.predictions ++ matchedPreds db.surveys mv data preds },
          (matchedPreds db.surveys mv data preds).length) := by
  unfold save_predictions_to_db
  rw [savePredLoop_eq_matched db.surveys mv data preds h]

/-- Witness for C7: a 2-pair batch against `exDb`; the second email
matches no stored survey, so exactly one prediction is persisted. -/
theorem save_predictions_skips_unmatched_witness :
    (exPreds.length ≤ exPredData.length) ∧
    save_predictions_to_db exDb exPredData exPreds "v1.0" =
      Except.ok
        ({ exDb with
            predictions :=
              exDb.predictions ++ matchedPreds exDb.surveys "v1.0" exPredData exPreds },
          (matchedPreds exDb.surveys "v1.0" exPredData exPreds).length) :=
  ⟨by decide,
   save_predictions_skips_unmatched exDb exPredData exPreds "v1.0" (by decide)⟩

/-! ### C6 / C2: the predictor -/

theorem traverseOpt_length (f : α → Option β) (l : List α) (l' : List β)
    (h : traverseOpt f l = some l') : l'.length = l.length := by
  induction l generalizing l' with
  | nil =>
    simp only [traverseOpt, Option.some.injEq] at h
    subst h
    rfl
  | cons a t ih =>
    simp only [traverseOpt] at h
    cases hfa : f a with
    | none => rw [hfa] at h; simp at h
    | some b =>
      rw [hfa] at h
      cases ht : traverseOpt f t with
      | none => rw [ht] at h; simp at h
      | some t' =>
        rw [ht] at h
        simp only [Option.some.injEq] at h
        subst h
        simp [ih t' ht]

theorem traverseOpt_get (f : α → Option β) (l : List α) (l' : List β)
    (h : traverseOpt f l = some l') :
    ∀ (i : Nat) a, l[i]? = some a → ∃ b, f a = some b ∧ l'[i]? = some b := by
  induction l generalizing l' with
  | nil => intro i a ha; simp at ha
  | cons x t ih =>
    simp only [traverseOpt] at h
    cases hfx : f x with
    | none => rw [hfx] at h; simp at h
    | some b =>
      rw [hfx] at h
      cases ht : traverseOpt f t with
      | none => rw [ht] at h; simp at h
      | some t' =>
        rw [ht] at h
        simp only [Option.some.injEq] at h
        subst h
        intro i a ha
        cases i with
        | zero =>
          simp only [List.getElem?_cons_zero, Option.some.injEq] at ha
          subst ha
          exact ⟨b, hfx, by simp⟩
        | succ j =>
          simp only [List.getElem?_cons_succ] at ha ⊢
          exact ih t' ht j a ha

theorem traverseOpt_isSome (f : α → Option β) (l : List α)
    (h : ∀ a ∈ l, (f a).isSome = true) : (traverseOpt f l).isSome = true := by
  induction l with
  | nil => simp [traverseOpt]
  | cons a t ih =>
    simp only [traverseOpt]
    obtain ⟨b, hb⟩ := Option.isSome_iff_exists.mp (h a (by simp))
    obtain ⟨t', ht⟩ :=
      Option.isSome_iff_exists.mp (ih (fun x hx => h x (by simp [hx])))
    rw [hb, ht]
    rfl

/-- C6: when prediction succeeds, the output has exactly one probability
per input row and the probability at index `i` is the model's
positive-class probability for the features selected from input row `i`
(row order preserved). -/
theorem predict_adoption_row_aligned (m : FittedModel) (data : Frame)
    (ps : List Rat) (h : predict_adoption m data = some ps) :
    ps.length = data.length ∧
    ∀ (i : Nat) r, data[i]? = some r → ∃ xr, selectRow featureCols r = some xr ∧
      ps[i]? = some (m.predictProbaPos xr) := by
  unfold predict_adoption at h
  cases hp : prepare_features data with
  | none => rw [hp] at h; simp at h
  | some Xy =>
    rw [hp] at h
    simp only [Option.some.injEq] at h
    subst h
    unfold prepare_features at hp
    cases hX : traverseOpt (selectRow featureCols) data with
    | none => rw [hX] at hp; simp at hp
    | some X =>
      cases hy : traverseOpt (fun r => Row.find? r "adoption_positive") data with
      | none => rw [hX, hy] at hp; simp at hp
      | some y =>
        rw [hX, hy] at hp
        simp only [Option.some.injEq] at hp
        subst hp
        constructor
        · simp [traverseOpt_length _ _ _ hX]
        · intro i r hr
          obtain ⟨xr, hxr, hXi⟩ := traverseOpt_get _ _ _ hX i r hr
          exact ⟨xr, hxr, by simp [hXi]⟩

/-- Witness for C6: the constant-probability model on a one-row frame
with the full training schema. -/
theorem predict_adoption_row_aligned_witness :
    predict_adoption exModel [exFullRow] = some [(1 : Rat)/2] ∧
    (([(1 : Rat)/2] : List Rat).length = ([exFullRow] : Frame).length ∧
    ∀ (i : Nat) r, ([exFullRow] : Frame)[i]? = some r →
      ∃ xr, selectRow featureCols r = some xr ∧
        ([(1 : Rat)/2] : List Rat)[i]? = some (exModel.predictProbaPos xr)) :=
  ⟨rfl, predict_adoption_row_aligned exModel [exFullRow] [(1 : Rat)/2] rfl⟩

/-- C2 (counterexample): a frame whose single row carries every feature
column but no `adoption_positive` column makes `predict_adoption` fail
(`none`, a pandas `KeyError` raised by the target lookup inside
`prepare_features`) — the claim that prediction never fails without the
target column is false on the code. -/
theorem predict_without_target_fails :
    (selectRow featureCols exFeatRow).isSome = true ∧
    Row.find? exFeatRow "adoption_positive" = none ∧
    predict_adoption exModel [exFeatRow] = none := by
  decide

/-- C2 (amended): prediction requires the target column even though its
values are discarded: on every frame whose rows carry the feature
columns AND the `adoption_positive` column, `predict_adoption` with a
fitted model does not fail. -/
theorem predict_requires_target_present (m : FittedModel) (data : Frame)
    (hX : ∀ r ∈ data, (selectRow featureCols r).isSome = true)
    (hy : ∀ r ∈ data, (Row.find? r "adoption_positive").isSome = true) :
    (predict_adoption m data).isSome = true := by
  unfold predict_adoption prepare_features
  obtain ⟨X, hXs⟩ := Option.isSome_iff_exists.mp (traverseOpt_isSome _ _ hX)
  obtain ⟨y, hys⟩ := Option.isSome_iff_exists.mp (traverseOpt_isSome _ _ hy)
  rw [hXs, hys]
  rfl

/-- Witness for the amended C2 on the one-row frame with the target. -/
theorem predict_requires_target_present_witness :
    (∀ r ∈ ([exFullRow] : Frame), (selectRow featureCols r).isSome = true) ∧
    (∀ r ∈ ([exFullRow] : Frame), (Row.find? r "adoption_positive").isSome = true) ∧
    (predict_adoption exModel [exFullRow]).isSome = true :=
  ⟨by decide, by decide,
   predict_requires_target_present exModel [exFullRow] (by decide) (by decide)⟩

/-! ### C8: insights client degrades to the canned text -/

set_option maxRecDepth 16384 in
/-- C8: whenever no API credential is configured, or the remote call
comes back with any non-2xx status (the code accepts only 200), or the
call raises a transport exception, `get_ai_insights` returns — it does
not raise — the fixed canned fallback `generate_mock_insights`, and that
text contains both literal markers. -/
theorem insights_fallback_canned (prompt key : String) (status : Nat)
    (content : Option String) (h2xx : ¬ (200 ≤ status ∧ status < 300)) :
    get_ai_insights none (ApiOutcome.success status content) prompt = generate_mock_insights ∧
    get_ai_insights none ApiOutcome.exception prompt = generate_mock_insights ∧
    get_ai_insights (some key) ApiOutcome.exception prompt = generate_mock_insights ∧
    get_ai_insights (some key) (ApiOutcome.success status content) prompt = generate_mock_insights ∧
    hasSubstr generate_mock_insights "Insights:" ∧
    hasSubstr generate_mock_insights "Recommendations:" := by
    refine ⟨rfl, rfl, rfl, ?_, ?_, ?_⟩
    · have hne : status ≠ 200 := by
        intro he
        exact h2xx (by simp [he])
      simp [get_ai_insights, hne]
    · exact ⟨"", "\n1. The majority of respondents (58%) are somewhat familiar with AI tools, but there's a significant portion (25%) who aren't familiar at all, indicating a need for basic AI literacy.\n2. The most commonly used AI tools are Turnitin (48%), Grammarly (42%), and ChatGPT (37%), showing a focus on writing assistance and academic integrity.\n3. Technical issues and lack of training are the top challenges faced by users, suggesting infrastructure and education gaps.\n4. Faculty affiliation significantly correlates with AI adoption rates, with Engineering and Business faculties showing higher adoption than Health Sciences and Education.\n5. There's a moderate positive correlation between AI familiarity and perception of learning improvement, indicating that understanding AI leads to better learning outcomes.\n\nRecommendations:\n1. Implement targeted AI literacy workshops, particularly for those faculties with lower adoption rates, focusing on basic understanding and practical applications.\n2. Address technical infrastructure issues by establishing dedicated AI help desks and releasing step-by-step guides for the most common tools.\n3. Develop faculty-specific use cases showcasing how AI tools can enhance teaching and learning in different disciplines to encourage adoption across all departments.", by rfl⟩
    · exact ⟨"Insights:\n1. The majority of respondents (58%) are somewhat familiar with AI tools, but there's a significant portion (25%) who aren't familiar at all, indicating a need for basic AI literacy.\n2. The most commonly used AI tools are Turnitin (48%), Grammarly (42%), and ChatGPT (37%), showing a focus on writing assistance and academic integrity.\n3. Technical issues and lack of training are the top challenges faced by users, suggesting infrastructure and education gaps.\n4. Faculty affiliation significantly correlates with AI adoption rates, with Engineering and Business faculties showing higher adoption than Health Sciences and Education.\n5. There's a moderate positive correlation between AI familiarity and perception of learning improvement, indicating that understanding AI leads to better learning outcomes.\n\n", "\n1. Implement targeted AI literacy workshops, particularly for those faculties with lower adoption rates, focusing on basic understanding and practical applications.\n2. Address technical infrastructure issues by establishing dedicated AI help desks and releasing step-by-step guides for the most common tools.\n3. Develop faculty-specific use cases showcasing how AI tools can enhance teaching and learning in different disciplines to encourage adoption across all departments.", by rfl⟩

/-- Witness for C8 at status 404 and a concrete key. -/
theorem insights_fallback_canned_witness :
    (¬ (200 ≤ 404 ∧ 404 < 300)) ∧
    (get_ai_insights none (ApiOutcome.success 404 none) "p" = generate_mock_insights ∧
    get_ai_insights none ApiOutcome.exception "p" = generate_mock_insights ∧
    get_ai_insights (some "k") ApiOutcome.exception "p" = generate_mock_insights ∧
    get_ai_insights (some "k") (ApiOutcome.success 404 none) "p" = generate_mock_insights ∧
    hasSubstr generate_mock_insights "Insights:" ∧
    hasSubstr generate_mock_insights "Recommendations:") :=
  ⟨by decide, insights_fallback_canned "p" "k" 404 none (by decide)⟩

/-! ### C9: an all-sentinel challenges column yields an empty chart -/

theorem getColumn_all_none (data : Frame)
    (h : ∀ r ∈ data, Row.find? r "8. Challenges" = some (Cell.str "None")) :
    getColumn data "8. Challenges" =
      some (List.replicate data.length (Cell.str "None")) := by
  induction data with
  | nil => rfl
  | cons r t ih =>
    have ht := ih (fun x hx => h x (by simp [hx]))
    unfold getColumn at ht ⊢
    simp only [traverseOpt, h r (by simp), ht, List.length_cons,
      List.replicate_succ]

theorem traverseOpt_entries_replicate (n : Nat) :
    traverseOpt challengeEntries (List.replicate n (Cell.str "None")) =
      some (List.replicate n ([] : List String)) := by
  induction n with
  | zero => rfl
  | succ k ih =>
    simp [List.replicate_succ, traverseOpt, challengeEntries, ih]

theorem flatten_replicate_nil (n : Nat) :
    (List.replicate n ([] : List String)).flatten = [] := by
  induction n with
  | zero => rfl
  | succ k ih => simp [List.replicate_succ, ih]

/-- C9: on a dataframe in which every row's challenges field equals the
sentinel string `"None"`, the challenges-frequency chart builder yields
an empty category table — no frequency entries at all, in particular no
category labelled `"None"`. -/
theorem challenges_all_none_empty_chart (data : Frame)
    (h : ∀ r ∈ data, Row.find? r "8. Challenges" = some (Cell.str "None")) :
    create_challenges_chart data = some [] := by
  simp [create_challenges_chart, getColumn_all_none data h,
    traverseOpt_entries_replicate, flatten_replicate_nil, counter]

/-- Witness for C9 on a two-row all-sentinel frame. -/
theorem challenges_all_none_empty_chart_witness :
    (∀ r ∈ ([[("8. Challenges", Cell.str "None")],
             [("8. Challenges", Cell.str "None")]] : Frame),
      Row.find? r "8. Challenges" = some (Cell.str "None")) ∧
    create_challenges_chart
        [[("8. Challenges", Cell.str "None")],
         [("8. Challenges", Cell.str "None")]] = some [] :=
  ⟨by decide,
   challenges_all_none_empty_chart
     [[("8. Challenges", Cell.str "None")], [("8. Challenges", Cell.str "None")]]
     (by decide)⟩

/-! ### C10: the preprocessor leaves its argument unchanged -/

/-- C10: running the body of `preprocess_data` over the object heap
leaves the caller's dataframe exactly as it was (the fills, the coercion
and the four derived columns appear only in the returned object, whose
contents are the pure `preprocess_data` of the argument): the copy at
line 15 of `src/utils.py` is the only read of the argument and every
in-place column write targets the copy. -/
theorem preprocess_leaves_argument_unchanged (h : Heap) (d : Nat)
    (hd : d < h.next) :
    Heap.get (preprocess_data_prog h d).1 d = Heap.get h d ∧
    Heap.get (preprocess_data_prog h d).1 (preprocess_data_prog h d).2 =
      preprocess_data (Heap.get h d) := by
  have hne1 : d ≠ h.next := Nat.ne_of_lt hd
  have hne2 : d ≠ h.next + 1 := Nat.ne_of_lt (Nat.lt_succ_of_lt hd)
  constructor
  · simp [preprocess_data_prog, Heap.alloc, Heap.write, Heap.get, hne1, hne2]
  · simp [preprocess_data_prog, Heap.alloc, Heap.write, Heap.get,
      preprocess_data]

/-- Witness for C10 on a one-object heap. -/
theorem preprocess_leaves_argument_unchanged_witness :
    0 < exHeap.next ∧
    (Heap.get (preprocess_data_prog exHeap 0).1 0 = Heap.get exHeap 0 ∧
    Heap.get (preprocess_data_prog exHeap 0).1 (preprocess_data_prog exHeap 0).2 =
      preprocess_data (Heap.get exHeap 0)) :=
  ⟨by decide, preprocess_leaves_argument_unchanged exHeap 0 (by decide)⟩
